import Mathlib

/-!
Shallow embedding of `bs_transformer.py` (class `BalanceSheetTransformer`)
from the repository `automate_balance_seat`, together with theorems settling
the frozen claims about its specification.

Modelling conventions:
* Python strings are `String` / `List Char`; the regex classes `\d` and `\s`
  are modelled by `Char.isDigit` (ASCII decimal digits) and
  `Char.isWhitespace`, matching the ASCII amount data this program handles.
* Python `float` arithmetic is idealised as exact rational arithmetic `ℚ`;
  `int(x)` is truncation toward zero; the `:,` format is digit grouping.
* `pandas` cells are plain strings; `NaN` cells are not modelled (the code
  replaces them by `""` before use).
-/

namespace BalanceSeat

attribute [local semireducible] Rat.add Rat.mul Rat.sub Rat.inv Rat.ofScientific

/-- Decides whether a character belongs to the regex class `[\d,]` used by
`clean_amount_value`. -/
def isDigitComma (c : Char) : Bool := c.isDigit || c == ','

/-- Decides whether `pat` occurs as a contiguous substring of `s`
(Python `pat in s`, case sensitive). -/
def containsSub : List Char → List Char → Bool
  | pat, [] => pat.isEmpty
  | pat, c :: t => pat.isPrefixOf (c :: t) || containsSub pat t

/-- String version of `containsSub`: Python `pat in s`. -/
def containsSubstr (pat s : String) : Bool := containsSub pat.toList s.toList

/-- Python `str.strip()`: remove leading and trailing whitespace. -/
def pyStrip (s : String) : String :=
  String.mk (((s.toList.dropWhile Char.isWhitespace).reverse.dropWhile
    Char.isWhitespace).reverse)

/-- Python `s.replace(',', '')`: drop every comma. -/
def stripCommas (s : String) : String :=
  String.mk (s.toList.filter (fun c => c != ','))

/-- Case-insensitive substring test, modelling
`Series.str.contains(pat, case=False)` for a literal pattern. -/
def containsCI (pat s : String) : Bool :=
  containsSub (pat.toList.map Char.toLower) (s.toList.map Char.toLower)

/-- Value of a list of ASCII digit characters read in base 10. -/
def digitsToNat (l : List Char) : ℕ :=
  l.foldl (fun acc c => 10 * acc + (c.toNat - '0'.toNat)) 0

/-- Parses a plain decimal literal (optional sign, integer part, optional
fractional part) exactly, modelling Python `float(s)` on the decimal literals
this program can produce. Exponents, infinities and surrounding whitespace
are outside the modelled input domain. -/
def parseFloatChars (l : List Char) : Option ℚ :=
  let neg : Bool := l.head? == some '-'
  let rest := if l.head? == some '-' || l.head? == some '+' then l.tail else l
  let ip := rest.takeWhile Char.isDigit
  let rest2 := rest.drop ip.length
  let val? : Option ℚ :=
    match rest2 with
    | [] => if ip.isEmpty then none else some ((digitsToNat ip : ℚ))
    | '.' :: fp =>
      if fp.all Char.isDigit && !(ip.isEmpty && fp.isEmpty) then
        some ((digitsToNat ip : ℚ) + (digitsToNat fp : ℚ) / ((10 : ℚ) ^ fp.length))
      else none
    | _ => none
  val?.map (fun v => if neg then -v else v)

/-- String version of `parseFloatChars`. -/
def parseFloat (s : String) : Option ℚ := parseFloatChars s.toList

/-- Inserts a comma after every third character; the input is the reversed
digit string of a number. -/
def group3 : List Char → List Char
  | a :: b :: c :: d :: rest => a :: b :: c :: ',' :: group3 (d :: rest)
  | l => l

/-- Python `f"{n:,}"` for a natural number: decimal digits with a comma
between each group of three. -/
def groupNat (n : ℕ) : String :=
  String.mk (group3 (Nat.repr n).toList.reverse).reverse

/-- Python `f"{i:,}"` for an integer: leading minus, then grouped digits. -/
def groupInt (i : ℤ) : String :=
  if i < 0 then "-" ++ groupNat i.natAbs else groupNat i.natAbs

/-- Python `int(x)` on a (rational-valued) float: truncation toward zero. -/
def ratTrunc (q : ℚ) : ℤ := q.num.tdiv (q.den : ℤ)

/-- Rounding to the nearest integer with ties to even, modelling the rounding
performed by Python `f"{x:,.0f}"`. -/
def roundHalfEven (q : ℚ) : ℤ :=
  let f := ⌊q⌋
  let r := q - (f : ℚ)
  if r < 1/2 then f
  else if 1/2 < r then f + 1
  else if f % 2 = 0 then f else f + 1

/-- Embeds `clean_amount_value`'s regex search: the first, leftmost-longest
match of `[△-]?[\d,]+` in the character list, or `none`. -/
def findNumberPattern : List Char → Option (List Char)
  | [] => none
  | c :: rest =>
    if c == '△' || c == '-' then
      match rest with
      | [] => none
      | d :: _ =>
        if isDigitComma d then some (c :: rest.takeWhile isDigitComma)
        else findNumberPattern rest
    else if isDigitComma c then some (c :: rest.takeWhile isDigitComma)
    else findNumberPattern rest

/-- Embeds `BalanceSheetTransformer.clean_amount_value` (src/bs_transformer.py
lines 117-146): extract the first numeric pattern, converting a leading `△`
into a minus sign; empty result when no pattern is found. -/
def cleanAmountValue (value : String) : String :=
  if value == "" then ""
  else
    match findNumberPattern value.toList with
    | some m =>
      match m with
      | '△' :: t => String.mk ('-' :: t)
      | _ => String.mk m
    | none => ""

/-- Decides whether a character belongs to the regex class `[0-9,\s]` used by
`extract_note_numbers`. -/
def isNoteChar (c : Char) : Bool := c.isDigit || c == ',' || c.isWhitespace

/-- All matches of `※[0-9,\s]*` in a character list, in order. The runs
matched after a `※` never contain another `※`, so scanning one character at a
time yields exactly the non-overlapping regex matches. -/
def noteMatches : List Char → List (List Char)
  | [] => []
  | c :: rest =>
    if c == '※' then ('※' :: rest.takeWhile isNoteChar) :: noteMatches rest
    else noteMatches rest

/-- Embeds `BalanceSheetTransformer.extract_note_numbers` (lines 191-209):
concatenate every `※…` annotation match and strip the result. -/
def extractNoteNumbers (s : String) : String :=
  match noteMatches s.toList with
  | [] => ""
  | ms => pyStrip (String.mk ms.flatten)

/-- Digits remaining after `format_amount` strips commas (line 163) and one
leading minus sign (lines 166-168) from its argument. -/
def formatParseBody (s : String) : List Char :=
  if (s.toList.filter (fun c => c != ',')).head? == some '-' then
    (s.toList.filter (fun c => c != ',')).tail
  else s.toList.filter (fun c => c != ',')

/-- Decides the `is_negative` flag of `format_amount` (line 166): the
comma-stripped argument starts with a minus sign. -/
def formatIsNeg (s : String) : Bool :=
  (s.toList.filter (fun c => c != ',')).head? == some '-'

/-- Embeds `BalanceSheetTransformer.format_amount` (lines 148-189): strip
commas and an optional leading minus, parse the remainder as a number, rescale
by 1,000,000 when at least 1,000,000 and evenly divisible (line 174), and
regroup; non-numeric input is returned unchanged. The float comparison
`num_value >= 1000000 and num_value % 1000000 == 0` is expressed on the exact
rational as integrality plus divisibility of the numerator. -/
def formatAmount (amount : String) : String :=
  if amount == "" then ""
  else
    match parseFloatChars (formatParseBody amount) with
    | none => amount
    | some q =>
      if q.den = 1 ∧ 1000000 ≤ q.num ∧ q.num % 1000000 = 0 then
        if formatIsNeg amount then groupInt (q.num / 1000000 * (-1))
        else groupInt (q.num / 1000000)
      else
        if formatIsNeg amount then "-" ++ groupInt (ratTrunc q)
        else groupInt (ratTrunc q)

/-- Embeds the dataclass `BSItem` (lines 7-13). -/
structure BSItem where
  level : ℕ
  name : String
  value : String
  note : String
  deriving DecidableEq, Repr, Inhabited

/-- Major-category names used by `_get_account_level` (line 276). -/
def majorCategories : List String :=
  ["資産の部", "負債の部", "純資産の部", "流動資産", "固定資産", "流動負債", "固定負債"]

/-- Embeds `BalanceSheetTransformer._get_account_level` (lines 261-281):
total rows are level 1, major categories level 0, everything else level 2. -/
def getAccountLevel (accountName : String) : ℕ :=
  if containsSubstr "合計" accountName then 1
  else if majorCategories.contains accountName then 0
  else 2

/-- Value of one entry of the `account_mapping` configuration dictionary: a
single pattern string, a list of pattern strings, or any other value (which
`map_item_to_bs_account` ignores). Non-string members of a pattern list are
likewise ignored by the source, so the list case carries strings only. -/
inductive ConfigVal where
  | str (p : String)
  | list (ps : List String)
  | other
  deriving DecidableEq, Repr

/-- Embeds the pattern-matching loop of `map_item_to_bs_account`
(lines 240-258): first account in table order one of whose patterns is a
substring of the (stripped) item name wins; the inner first-match over a
pattern list is expressed with `any`, which returns the same account. -/
def matchLoop : List (String × ConfigVal) → String → String → String → Option BSItem
  | [], _, _, _ => none
  | (acct, pv) :: rest, nameStr, formatted, note =>
    match pv with
    | .str p =>
      if containsSubstr p nameStr then
        some ⟨getAccountLevel acct, acct, formatted, note⟩
      else matchLoop rest nameStr formatted note
    | .list ps =>
      if ps.any (fun p => containsSubstr p nameStr) then
        some ⟨getAccountLevel acct, acct, formatted, note⟩
      else matchLoop rest nameStr formatted note
    | .other => matchLoop rest nameStr formatted note

/-- Embeds `BalanceSheetTransformer.map_item_to_bs_account` (lines 211-259):
reject empty or whitespace-only names, clean and format the amount, extract
the annotation, then run the first-match pattern search. -/
def mapItemToBsAccount (mapping : List (String × ConfigVal))
    (itemName amount : String) : Option BSItem :=
  if itemName == "" then none
  else if pyStrip itemName == "" then none
  else
    matchLoop mapping (pyStrip itemName)
      (formatAmount (cleanAmountValue amount)) (extractNoteNumbers amount)

/-- Embeds the per-item value parse used by the aggregation loops
(lines 390-400 and 609-621): skip blank values, strip commas, negate after a
leading minus, and parse as a float; unparseable values contribute nothing. -/
def parseItemValue (v : String) : Option ℚ :=
  if v != "" && pyStrip v != "" then
    if (stripCommas v).toList.head? == some '-' then
      (parseFloatChars (stripCommas v).toList.tail).map (fun q => -q)
    else parseFloatChars (stripCommas v).toList
  else none

/-- Formats a consolidated total (line 404): plain grouped integer when the
sum is whole, otherwise Python's `:,.0f` rounding (half to even). -/
def formatTotal (total : ℚ) : String :=
  if total.den = 1 then groupInt total.num else groupInt (roundHalfEven total)

/-- Embeds the summation block of
`_build_balance_sheet_structure_with_grouping` (lines 386-404): sum every
parseable member value; `none` when no member parsed. -/
def consolidateAmounts (items : List BSItem) : Option String :=
  match items.filterMap (fun it => parseItemValue it.value) with
  | [] => none
  | vals => some (formatTotal vals.sum)

/-- Embeds the construction of one consolidated `BSItem` (lines 402-410):
level of the first group member, summed formatted amount, empty note. -/
def consolidateGroup : String → List BSItem → Option BSItem
  | _, [] => none
  | name, it :: rest =>
    (consolidateAmounts (it :: rest)).map
      (fun fmt => ⟨it.level, name, fmt, ""⟩)

/-- Embeds the loop of lines 383-410 over the grouped item dictionary,
producing the `consolidated_items` dictionary in iteration order. -/
def consolidateItemsDict (d : List (String × List BSItem)) :
    List (String × BSItem) :=
  d.filterMap (fun p => (consolidateGroup p.1 p.2).map (fun it => (p.1, it)))

/-- Value of one entry of the chart-of-accounts template: a list of leaf
names, a nested dictionary, or `None` (a subtotal/total slot). -/
inductive TemplVal where
  | tlist (names : List String)
  | tdict (entries : List (String × TemplVal))
  | tnone
  deriving Repr

/-- Embeds the default `_load_bs_structure` template (lines 32-115). -/
def bsStructure : List (String × List (String × TemplVal)) :=
  [("資産の部",
    [("流動資産", .tlist
      ["現金及び預金", "コールローン", "受取手形及び売掛金", "有価証券",
       "棚卸資産", "営業貸付金", "銀行業における貸出金", "その他",
       "貸倒引当金", "流動資産合計"]),
     ("固定資産", .tdict
      [("有形固定資産", .tlist
        ["建物及び構築物（純額）", "工具、器具及び備品（純額）", "土地",
         "リース資産（純額）", "建設仮勘定", "その他（純額）",
         "有形固定資産合計"]),
       ("無形固定資産", .tlist
        ["のれん", "ソフトウエア", "リース資産", "その他", "無形固定資産合計"]),
       ("投資その他の資産", .tlist
        ["投資有価証券", "退職給付に係る資産", "繰延税金資産", "差入保証金",
         "店舗賃借仮勘定", "その他", "貸倒引当金", "投資その他の資産合計"])]),
     ("固定資産合計", .tnone),
     ("資産合計", .tnone)]),
   ("負債の部",
    [("流動負債", .tlist
      ["支払手形及び買掛金", "銀行業における預金", "短期借入金",
       "1年内返済予定の長期借入金", "1年内償還予定の社債",
       "コマーシャル・ペーパー", "リース債務", "未払法人税等", "契約負債",
       "賞与引当金", "店舗閉鎖損失引当金", "ポイント引当金",
       "設備関係支払手形", "その他", "流動負債合計"]),
     ("固定負債", .tlist
      ["社債", "長期借入金", "リース債務", "繰延税金負債",
       "役員退職慰労引当金", "店舗閉鎖損失引当金", "偶発損失引当金",
       "利息返還損失引当金", "退職給付に係る負債", "資産除去債務",
       "長期預り保証金", "保険契約準備金", "その他", "固定負債合計"]),
     ("負債合計", .tnone)])]

/-- Row of 25 empty cells (`[''] * 25`). -/
def blankRow : List String := List.replicate 25 ""

/-- Places an item label at the cell selected by its level (lines 491-496):
level 1 at cell 0, level 2 at cell 1, level 3 at cell 2. -/
def placeLabel (itemName : String) (level : ℕ) : List String :=
  if level = 1 then blankRow.set 0 itemName
  else if level = 2 then blankRow.set 1 itemName
  else if level = 3 then blankRow.set 2 itemName
  else blankRow

/-- Embeds `BalanceSheetTransformer._add_item_row_with_grouping`
(lines 473-502): one 25-cell row, label placed by level, and the consolidated
amount double-quoted in cell 9 when the dictionary holds a non-empty value. -/
def addItemRowWithGrouping (itemName : String)
    (itemDict : List (String × BSItem)) (level : ℕ) : List (List String) :=
  let row := placeLabel itemName level
  match itemDict.lookup itemName with
  | some it =>
    if it.value != "" then [row.set 9 ("\"" ++ it.value ++ "\"")] else [row]
  | none => [row]

/-- Embeds the body of the `for category, subcategories in structure.items()`
loop of `_build_section_with_grouping` (lines 442-469). -/
def buildCategoryRowsG (itemDict : List (String × BSItem)) :
    String × TemplVal → List (List String)
  | (cat, .tdict entries) =>
    blankRow.set 1 cat ::
      entries.flatMap (fun e =>
        match e.2 with
        | .tlist names =>
          blankRow.set 2 e.1 ::
            names.flatMap (fun n => addItemRowWithGrouping n itemDict 3)
        | _ => addItemRowWithGrouping e.1 itemDict 2)
  | (cat, .tlist names) =>
    blankRow.set 1 cat ::
      names.flatMap (fun n => addItemRowWithGrouping n itemDict 3)
  | (cat, .tnone) => addItemRowWithGrouping cat itemDict 1

/-- Embeds `BalanceSheetTransformer._build_section_with_grouping`
(lines 425-471): section header row, then one block per template category. -/
def buildSectionWithGrouping (sectionName : String)
    (itemDict : List (String × BSItem)) : List (List String) :=
  blankRow.set 0 sectionName ::
    ((bsStructure.lookup sectionName).getD []).flatMap
      (buildCategoryRowsG itemDict)

/-- Embeds `BalanceSheetTransformer._build_balance_sheet_structure_with_grouping`
(lines 370-423): consolidate each group, then build both sections with one
blank separator row between them. -/
def buildBalanceSheetStructureWithGrouping
    (bsItemsDict : List (String × List BSItem)) : List (List String) :=
  let consolidated := consolidateItemsDict bsItemsDict
  buildSectionWithGrouping "資産の部" consolidated ++ [blankRow] ++
    buildSectionWithGrouping "負債の部" consolidated

/-- Embeds `BalanceSheetTransformer._add_item_row` (lines 578-631), the
builder used only by the legacy non-grouping path `_build_balance_sheet_structure`:
it sums the matching entries itself and renders a negative total with the `△`
glyph before the grouped absolute magnitude. -/
def addItemRow (itemName : String) (itemDict : List (String × BSItem))
    (level : ℕ) : List (List String) :=
  let matching := (itemDict.filter (fun p => p.1 == itemName)).map (fun p => p.2)
  let row := placeLabel itemName level
  match matching with
  | [] => [row]
  | _ =>
    let vals := matching.filterMap (fun it => parseItemValue it.value)
    match vals with
    | [] => [row]
    | _ =>
      let total := vals.sum
      let formatted :=
        if total < 0 then "△" ++ groupNat (ratTrunc total).natAbs
        else formatTotal total
      [row.set 9 ("\"" ++ formatted ++ "\"")]

/-- Embeds the `pandas` dtype tags the column detectors inspect. -/
inductive Dtype where
  | object
  | int64
  | float64
  | otherD
  deriving DecidableEq, Repr

/-- Minimal model of the input `DataFrame`: named, dtype-tagged columns and a
list of rows of string cells aligned with the column list. -/
structure SimpleDF where
  cols : List (String × Dtype)
  rows : List (List String)
  deriving Repr

/-- Index of a named column. -/
def colIdx (df : SimpleDF) (name : String) : Option ℕ :=
  df.cols.findIdx? (fun c => c.1 == name)

/-- Cell of a row under a named column, empty when absent. -/
def cellOf (df : SimpleDF) (r : List String) (name : String) : String :=
  match colIdx df name with
  | some i => r.getD i ""
  | none => ""

/-- Membership of a named column. -/
def hasCol (df : SimpleDF) (name : String) : Bool :=
  df.cols.any (fun c => c.1 == name)

/-- Embeds the current-period filter of `transform_to_balance_sheet`
(lines 299-327): filter on the context-id column, else the relative-year
column, else the instant/quarter columns whose first value contains
`Current`. -/
def currentYearFilter (df : SimpleDF) : SimpleDF :=
  if hasCol df "コンテキストID" then
    { df with rows := (df.rows.filter
        (fun r => containsCI "current" (cellOf df r "コンテキストID"))) }
  else if hasCol df "相対年度" then
    { df with rows := (df.rows.filter
        (fun r => cellOf df r "相対年度" == "当期" ||
                  cellOf df r "相対年度" == "当期末")) }
  else if df.cols.any (fun c =>
      containsSubstr "Instant" c.1 || containsSubstr "Quarter" c.1) then
    let instantCols := (df.cols.filter (fun c =>
      containsSubstr "Instant" c.1 || containsSubstr "Quarter" c.1)).map
        (fun c => c.1)
    let activeCols := instantCols.filter (fun cname =>
      !df.rows.isEmpty &&
        containsSubstr "Current" (cellOf df (df.rows.headD []) cname))
    let mask := fun r => activeCols.any (fun cname =>
      containsCI "current" (cellOf df r cname))
    if df.rows.any mask then { df with rows := df.rows.filter mask } else df
  else df

/-- Embeds `BalanceSheetTransformer._detect_item_name_column`
(lines 633-660): exact candidate names, then name-pattern containment, then
the first object-dtype column. -/
def detectItemNameColumn (df : SimpleDF) : Option String :=
  let colNames := df.cols.map (fun c => c.1)
  match ["項目名", "科目名", "勘定科目", "Element", "ElementName"].find?
      (fun c => colNames.contains c) with
  | some c => some c
  | none =>
    match colNames.find? (fun col =>
        ["項目", "科目", "勘定", "Element"].any
          (fun p => containsSubstr p col)) with
    | some c => some c
    | none =>
      (df.cols.find? (fun c => c.2 == Dtype.object)).map (fun c => c.1)

/-- Decides whether a sample value looks numeric for `_detect_value_column`
(lines 693-699): drop commas, turn `△` into a minus, strip, and try to parse
as a float. -/
def numericLike (v : String) : Bool :=
  (parseFloat (pyStrip (String.mk (v.toList.filterMap (fun c =>
    if c == ',' then none
    else if c == '△' then some '-'
    else some c))))).isSome

/-- Embeds `BalanceSheetTransformer._detect_value_column` (lines 662-704):
exact candidate names, then name-pattern containment, then the first column
that is numeric-typed or whose first ten values are mostly numeric. -/
def detectValueColumn (df : SimpleDF) : Option String :=
  let colNames := df.cols.map (fun c => c.1)
  match ["値", "金額", "Value", "Amount", "残高"].find?
      (fun c => colNames.contains c) with
  | some c => some c
  | none =>
    match colNames.find? (fun col =>
        ["値", "金額", "Value", "Amount"].any
          (fun p => containsSubstr p col)) with
    | some c => some c
    | none =>
      (df.cols.find? (fun c =>
        c.2 == Dtype.int64 || c.2 == Dtype.float64 ||
          (c.2 == Dtype.object &&
            (let sample := ((df.rows.map (fun r => cellOf df r c.1)).take 10)
             2 * (sample.filter numericLike).length > sample.length)))).map
        (fun c => c.1)

/-- Embeds the grouping loop of `transform_to_balance_sheet` (lines 344-359):
group classified items by account name, preserving first-seen key order and
appending within each group. -/
def insertGrouped (acc : List (String × List BSItem)) (it : BSItem) :
    List (String × List BSItem) :=
  if acc.any (fun p => p.1 == it.name) then
    acc.map (fun p => if p.1 == it.name then (p.1, p.2 ++ [it]) else p)
  else acc ++ [(it.name, [it])]

/-- Folds `insertGrouped` over the classified items. -/
def groupItems (items : List BSItem) : List (String × List BSItem) :=
  items.foldl insertGrouped []

/-- Embeds the row standardisation of `_convert_to_csv_format`
(lines 716-723): pad short rows with empty cells, truncate long rows. -/
def standardizeRow (row : List String) : List String :=
  if row.length < 25 then row ++ List.replicate (25 - row.length) ""
  else if row.length > 25 then row.take 25
  else row

/-- Embeds `BalanceSheetTransformer._convert_to_csv_format` (lines 706-730):
standardise every row of the table. -/
def convertToCsvFormat (bsTable : List (List String)) : List (List String) :=
  bsTable.map standardizeRow

/-- Classifies every row of a label/value pair list (the loop of
lines 348-359 applied to the detected columns). -/
def classifyRows (mapping : List (String × ConfigVal))
    (rows : List (String × String)) : List BSItem :=
  rows.filterMap (fun r => mapItemToBsAccount mapping r.1 r.2)

/-- Embeds `BalanceSheetTransformer.transform_to_balance_sheet`
(lines 283-368): filter to the current period, detect the label and value
columns (returning the empty report when either is missing), classify and
group the rows, build the grouped balance-sheet structure, and standardise. -/
def transformToBalanceSheet (mapping : List (String × ConfigVal))
    (df : SimpleDF) : List (List String) :=
  match detectItemNameColumn (currentYearFilter df),
        detectValueColumn (currentYearFilter df) with
  | some nameCol, some valCol =>
    convertToCsvFormat (buildBalanceSheetStructureWithGrouping
      (groupItems (classifyRows mapping
        ((currentYearFilter df).rows.map (fun r =>
          (cellOf (currentYearFilter df) r nameCol,
           cellOf (currentYearFilter df) r valCol))))))
  | _, _ => convertToCsvFormat []

/-- Decides, following the spec's words for the Account Classifier, whether a
pattern-table entry matches a label: a single pattern string or any member of
a list of alternative strings, each checked via case-sensitive substring
containment. Used only to compare the source classifier against the spec. -/
def matchesPatterns (pv : ConfigVal) (label : String) : Bool :=
  match pv with
  | .str p => containsSubstr p label
  | .list ps => ps.any (fun p => containsSubstr p label)
  | .other => false

/-- Account selection following the spec's words: the first matching account
in table iteration order wins, with no scoring and no longest-match
preference. Used only to compare the source classifier against the spec. -/
def firstMatchingAccount : List (String × ConfigVal) → String → Option String
  | [], _ => none
  | (acct, pv) :: rest, label =>
    if matchesPatterns pv label then some acct
    else firstMatchingAccount rest label

/-- Tokens of the shape the Amount Normalizer can emit: an optional leading
minus sign followed by at least one digit or comma character. -/
def isCleanToken (s : String) : Bool :=
  if s.toList.head? == some '-' then
    !(s.toList.tail).isEmpty && (s.toList.tail).all isDigitComma
  else !s.toList.isEmpty && s.toList.all isDigitComma

/-- Signed integer value that `format_amount` parses from its argument, when
the parsed number is a whole number: commas stripped, one leading minus
stripped and re-applied after the parse. -/
def parseOfFormat (s : String) : Option ℤ :=
  (parseFloatChars (formatParseBody s)).bind
    (fun q => if q.den = 1 then
        some (if formatIsNeg s then -q.num else q.num)
      else none)

/-- Consolidated formatted amount the grouping pipeline of
`transform_to_balance_sheet` assigns to one canonical account, for a list of
raw (label, value) rows. -/
def consolidatedValueFor (mapping : List (String × ConfigVal))
    (rows : List (String × String)) (account : String) : Option String :=
  ((consolidateItemsDict (groupItems (classifyRows mapping rows))).lookup
    account).map (fun it => it.value)

/-! Theorems settling the claims. -/

/-- Claim C1 is false on the code: for the two raw items
(現金及び預金, "1,234,567") and (現金及び預金, "2,000,000") with the pattern
mapping the account name to itself, the grouping pipeline produces the single
consolidated amount "1,234,569", not "3,234,567", because `format_amount`
rescales "2,000,000" to "2" during classification, before summation. -/
theorem C1_counterexample :
    consolidatedValueFor [("現金及び預金", ConfigVal.str "現金及び預金")]
      [("現金及び預金", "1,234,567"), ("現金及び預金", "2,000,000")]
      "現金及び預金" = some "1,234,569" ∧
    ("1,234,569" : String) ≠ "3,234,567" := by
  exact ⟨by decide, by decide⟩

/-- Claim C1 as amended: the pipeline produces exactly one consolidated entry
for 現金及び預金, but the unit-rescale by 1,000,000 IS applied to each
contributing value during classification — "2,000,000" is rescaled to "2" —
so the consolidated formatted amount is "1,234,569". -/
theorem C1_amended :
    formatAmount (cleanAmountValue "2,000,000") = "2" ∧
    consolidateItemsDict (groupItems (classifyRows
      [("現金及び預金", ConfigVal.str "現金及び預金")]
      [("現金及び預金", "1,234,567"), ("現金及び預金", "2,000,000")])) =
      [("現金及び預金", ⟨2, "現金及び預金", "1,234,569", ""⟩)] := by
  exact ⟨by decide, by decide⟩

/-- Claim C2 is false on the code: for the raw item (建物, "△500,000")
classified to the template leaf 建物及び構築物（純額）, the grouping path used
by `transform_to_balance_sheet` places the amount cell "-500,000" (quoted),
rendered with a leading ASCII minus, not with the alternate glyph △. -/
theorem C2_counterexample :
    ((buildBalanceSheetStructureWithGrouping (groupItems (classifyRows
        [("建物及び構築物（純額）", ConfigVal.str "建物")]
        [("建物", "△500,000")]))).find?
      (fun r => r.getD 2 "" == "建物及び構築物（純額）")).map
        (fun r => r.getD 9 "") = some "\"-500,000\"" ∧
    ("\"-500,000\"" : String) ≠ "\"△500,000\"" := by
  exact ⟨by decide, by decide⟩

/-- Claim C2 as amended: for every group of classified entries whose summed
total is negative (and whole), the grouping path renders the consolidated
amount as a leading ASCII minus followed by the grouped absolute magnitude;
the alternate-glyph rendering `△…` exists only in the legacy non-grouping
builder `_add_item_row`, which `transform_to_balance_sheet` does not invoke —
there the single item (建物, value "-500,000") is rendered "△500,000". -/
theorem C2_amended (items : List BSItem)
    (hvals : items.filterMap (fun it => parseItemValue it.value) ≠ [])
    (hneg : (items.filterMap (fun it => parseItemValue it.value)).sum < 0)
    (hden : ((items.filterMap (fun it => parseItemValue it.value)).sum).den = 1) :
    consolidateAmounts items =
      some ("-" ++ groupNat
        (((items.filterMap (fun it => parseItemValue it.value)).sum).num.natAbs)) ∧
    addItemRow "建物" [("建物", ⟨2, "建物", "-500,000", ""⟩)] 3 =
      [(blankRow.set 2 "建物").set 9 "\"△500,000\""] := by
  constructor
  · unfold consolidateAmounts
    cases hv : items.filterMap (fun it => parseItemValue it.value) with
    | nil => exact absurd hv hvals
    | cons a t =>
      rw [hv] at hneg hden
      simp only [hv]
      unfold formatTotal
      rw [if_pos hden]
      unfold groupInt
      have hnum : ((a :: t).sum).num < 0 := by
        by_contra hc
        exact absurd (Rat.num_nonneg.mp (le_of_not_lt hc)) (not_le_of_lt hneg)
      rw [if_pos hnum]
  · decide

/-- Witness for the amended claim C2 at the concrete group holding the single
classified entry for the raw item (建物, "△500,000"). -/
theorem C2_amended_witness :
    ([⟨2, "建物", "-500,000", ""⟩] : List BSItem).filterMap
        (fun it => parseItemValue it.value) ≠ [] ∧
    consolidateAmounts [⟨2, "建物", "-500,000", ""⟩] =
      some ("-" ++ groupNat
        ((([⟨2, "建物", "-500,000", ""⟩] : List BSItem).filterMap
          (fun it => parseItemValue it.value)).sum).num.natAbs) :=
  ⟨by decide, (C2_amended [⟨2, "建物", "-500,000", ""⟩]
    (by decide) (by decide) (by decide)).1⟩

/-- Claim C3 is false on the code: in the asset section built by the grouping
path, the category 流動資産 has a direct leaf-name list, its header row
carries the label in cell 1, but the first leaf row that follows carries the
leaf label 現金及び預金 in cell 2 (cell 1 stays empty), not in cell 1. -/
theorem C3_counterexample :
    (buildSectionWithGrouping "資産の部" [])[1]? =
      some (blankRow.set 1 "流動資産") ∧
    (buildSectionWithGrouping "資産の部" [])[2]? =
      some (blankRow.set 2 "現金及び預金") ∧
    (blankRow.set 2 "現金及び預金")[1]? = some "" ∧
    (blankRow.set 2 "現金及び預金")[2]? = some "現金及び預金" := by
  exact ⟨by decide, by decide, by decide, by decide⟩

/-- Claim C3 as amended: for every category whose template value is a direct
list of leaf names, the grouping builder emits one header row with the
category label in cell 1, followed by one row per leaf whose label is placed
in cell 2 (level 3) — one column to the right of the category header, not the
same column. -/
theorem C3_amended (cat : String) (names : List String)
    (dict : List (String × BSItem)) :
    buildCategoryRowsG dict (cat, TemplVal.tlist names) =
      blankRow.set 1 cat ::
        names.flatMap (fun n => addItemRowWithGrouping n dict 3) ∧
    (blankRow.set 1 cat)[1]? = some cat ∧
    ∀ n, ∃ row, addItemRowWithGrouping n dict 3 = [row] ∧
      row[2]? = some n ∧ row[1]? = some "" := by
  refine ⟨rfl, rfl, fun n => ?_⟩
  cases h : dict.lookup n with
  | none =>
    exact ⟨blankRow.set 2 n,
      by simp [addItemRowWithGrouping, placeLabel, h], rfl, rfl⟩
  | some it =>
    by_cases hv : (it.value != "") = true
    · exact ⟨(blankRow.set 2 n).set 9 ("\"" ++ it.value ++ "\""),
        by simp [addItemRowWithGrouping, placeLabel, h, hv], rfl, rfl⟩
    · exact ⟨blankRow.set 2 n,
        by simp [addItemRowWithGrouping, placeLabel, h, hv], rfl, rfl⟩

/-- Claim C4 is false on the code: the comma-only string "," contains no
digit characters, yet `clean_amount_value` returns "," rather than the empty
string, because the regex `[△-]?[\d,]+` accepts a run of commas. -/
theorem C4_counterexample :
    cleanAmountValue "," = "," ∧ ("," : String) ≠ "" := by
  exact ⟨by decide, by decide⟩

/-- Helper: the regex search of `clean_amount_value` finds nothing in a
string none of whose characters is a digit or a comma. -/
theorem findNumberPattern_eq_none (l : List Char)
    (h : ∀ c ∈ l, isDigitComma c = false) : findNumberPattern l = none := by
  induction l with
  | nil => rfl
  | cons c rest ih =>
    have hc := h c (List.mem_cons_self c rest)
    have hrest : ∀ x ∈ rest, isDigitComma x = false :=
      fun x hx => h x (List.mem_cons_of_mem c hx)
    unfold findNumberPattern
    by_cases hsign : (c == '△' || c == '-') = true
    · rw [if_pos hsign]
      cases rest with
      | nil => rfl
      | cons d t =>
        have hd := hrest d (List.mem_cons_self d t)
        simpa [hd] using ih hrest
    · rw [if_neg hsign, if_neg (by simp [hc])]
      exact ih hrest

/-- Claim C4 as amended: `clean_amount_value` returns the empty string for
every input containing neither digit nor comma characters; a digit-free
string that contains commas instead returns its first comma run (as the
counterexample shows), because the regex class `[\d,]+` also accepts commas. -/
theorem C4_amended (s : String)
    (h : ∀ c ∈ s.toList, isDigitComma c = false) :
    cleanAmountValue s = "" := by
  unfold cleanAmountValue
  by_cases hs : (s == "") = true
  · rw [if_pos hs]
  · rw [if_neg hs, findNumberPattern_eq_none s.toList h]

/-- Witness for the amended claim C4 at the digit-free, comma-free input
"abc△-". -/
theorem C4_amended_witness :
    (∀ c ∈ ("abc△-" : String).toList, isDigitComma c = false) ∧
    cleanAmountValue "abc△-" = "" :=
  ⟨by decide, C4_amended "abc△-" (by decide)⟩

/-- Helper: every row produced by `_convert_to_csv_format` has exactly 25
cells. -/
theorem convertToCsvFormat_length (t : List (List String)) (row : List String)
    (h : row ∈ convertToCsvFormat t) : row.length = 25 := by
  unfold convertToCsvFormat at h
  obtain ⟨r, _, rfl⟩ := List.mem_map.mp h
  unfold standardizeRow
  by_cases h1 : r.length < 25
  · rw [if_pos h1]
    simp only [List.length_append, List.length_replicate]
    omega
  · rw [if_neg h1]
    by_cases h2 : r.length > 25
    · rw [if_pos h2]
      simp only [List.length_take]
      omega
    · rw [if_neg h2]
      omega

/-- Claim C5: every row of the table returned by
`transform_to_balance_sheet` has exactly 25 string cells, for every input
frame (including one with zero rows), because the final standardisation step
pads short rows with empty strings and truncates long rows. -/
theorem C5_rows25 (mapping : List (String × ConfigVal)) (df : SimpleDF)
    (row : List String) (h : row ∈ transformToBalanceSheet mapping df) :
    row.length = 25 := by
  unfold transformToBalanceSheet at h
  cases h1 : detectItemNameColumn (currentYearFilter df) with
  | none =>
    rw [h1] at h
    cases h2 : detectValueColumn (currentYearFilter df) with
    | none => rw [h2] at h; exact convertToCsvFormat_length _ _ h
    | some v => rw [h2] at h; exact convertToCsvFormat_length _ _ h
  | some c =>
    rw [h1] at h
    cases h2 : detectValueColumn (currentYearFilter df) with
    | none => rw [h2] at h; exact convertToCsvFormat_length _ _ h
    | some v => rw [h2] at h; exact convertToCsvFormat_length _ _ h

/-- Witness for claim C5: the asset-section header row of the table built
from an empty two-column frame is a member of the output and has 25 cells. -/
theorem C5_rows25_witness :
    ("資産の部" :: List.replicate 24 "") ∈
      transformToBalanceSheet []
        ⟨[("項目名", Dtype.object), ("値", Dtype.object)], []⟩ ∧
    ("資産の部" :: List.replicate 24 "").length = 25 :=
  ⟨by decide, C5_rows25 [] ⟨[("項目名", Dtype.object), ("値", Dtype.object)], []⟩
    ("資産の部" :: List.replicate 24 "") (by decide)⟩

/-- Claim C6: when no label column or no value column can be detected in the
(filtered) input, `transform_to_balance_sheet` returns an empty report — a
table with zero rows — rather than raising; in this embedding the transform
is a total function, so no exception can escape it. -/
theorem C6_empty_report (mapping : List (String × ConfigVal)) (df : SimpleDF)
    (h : detectItemNameColumn (currentYearFilter df) = none ∨
         detectValueColumn (currentYearFilter df) = none) :
    transformToBalanceSheet mapping df = [] := by
  unfold transformToBalanceSheet
  rcases h with h | h
  · rw [h]
    cases detectValueColumn (currentYearFilter df) <;> rfl
  · rw [h]
    cases detectItemNameColumn (currentYearFilter df) <;> rfl

/-- Witness for claim C6 at a frame with a single undetectable column. -/
theorem C6_empty_report_witness :
    detectItemNameColumn
      (currentYearFilter ⟨[("zzz", Dtype.otherD)], []⟩) = none ∧
    transformToBalanceSheet [] ⟨[("zzz", Dtype.otherD)], []⟩ = [] :=
  ⟨by decide, C6_empty_report [] ⟨[("zzz", Dtype.otherD)], []⟩
    (Or.inl (by decide))⟩

/-- Helper: the classifier's pattern loop selects exactly the spec's
first-matching account, projected to the account name. -/
theorem matchLoop_map_name (mapping : List (String × ConfigVal))
    (label formatted note : String) :
    (matchLoop mapping label formatted note).map (fun it => it.name) =
      firstMatchingAccount mapping label := by
  induction mapping with
  | nil => rfl
  | cons hd tl ih =>
    obtain ⟨acct, pv⟩ := hd
    cases pv with
    | str p =>
      by_cases hp : containsSubstr p label = true
      · simp [matchLoop, firstMatchingAccount, matchesPatterns, hp]
      · simp [matchLoop, firstMatchingAccount, matchesPatterns, hp, ih]
    | list ps =>
      by_cases hp : (ps.any (fun p => containsSubstr p label)) = true
      · simp [matchLoop, firstMatchingAccount, matchesPatterns, hp]
      · simp [matchLoop, firstMatchingAccount, matchesPatterns, hp, ih]
    | other => simp [matchLoop, firstMatchingAccount, matchesPatterns, ih]

/-- Claim C7: the classifier returns nothing exactly when the label strips to
the empty string (missing, empty, or whitespace-only labels), and otherwise
returns the first canonical account, in pattern-table iteration order, one of
whose configured patterns (a single string or any member of a list) is a
case-sensitive substring of the stripped label — no scoring and no
longest-match preference — returning nothing when no pattern matches. -/
theorem C7_classifier (mapping : List (String × ConfigVal))
    (itemName amount : String) :
    (mapItemToBsAccount mapping itemName amount).map (fun it => it.name) =
      if pyStrip itemName = "" then none
      else firstMatchingAccount mapping (pyStrip itemName) := by
  unfold mapItemToBsAccount
  by_cases h0 : (itemName == "") = true
  · have he : itemName = "" := by simpa using h0
    subst he
    simp [pyStrip]
  · rw [if_neg h0]
    by_cases h1 : (pyStrip itemName == "") = true
    · have he : pyStrip itemName = "" := by simpa using h1
      simp [he]
    · have hne : ¬ pyStrip itemName = "" := by simpa using h1
      rw [if_neg h1, if_neg hne]
      exact matchLoop_map_name mapping (pyStrip itemName) _ _

/-- Claim C9: the consolidated amount produced by the aggregation step is
invariant under any permutation of the classified entries of a group; the
summation over exact values is order-independent. -/
theorem C9_perm_invariant (l1 l2 : List BSItem) (h : l1.Perm l2) :
    consolidateAmounts l1 = consolidateAmounts l2 := by
  unfold consolidateAmounts
  have hperm := h.filterMap (fun it => parseItemValue it.value)
  have hsum : (l1.filterMap (fun it => parseItemValue it.value)).sum =
      (l2.filterMap (fun it => parseItemValue it.value)).sum := hperm.sum_eq
  cases h1 : l1.filterMap (fun it => parseItemValue it.value) with
  | nil =>
    rw [h1] at hperm
    rw [hperm.nil_eq.symm]
  | cons a t =>
    cases h2 : l2.filterMap (fun it => parseItemValue it.value) with
    | nil =>
      rw [h1, h2] at hperm
      exact absurd hperm.eq_nil (List.cons_ne_nil a t)
    | cons b u =>
      rw [h1, h2] at hsum
      exact congrArg (fun q => some (formatTotal q)) hsum

/-- Witness for claim C9 at a two-entry group and its transposition. -/
theorem C9_perm_invariant_witness :
    ([⟨2, "a", "1,234,567", ""⟩, ⟨2, "a", "2", ""⟩] : List BSItem).Perm
      [⟨2, "a", "2", ""⟩, ⟨2, "a", "1,234,567", ""⟩] ∧
    consolidateAmounts [⟨2, "a", "1,234,567", ""⟩, ⟨2, "a", "2", ""⟩] =
      consolidateAmounts [⟨2, "a", "2", ""⟩, ⟨2, "a", "1,234,567", ""⟩] :=
  ⟨List.Perm.swap _ _ _, C9_perm_invariant _ _ (List.Perm.swap _ _ _)⟩

/-- Helper: truncation toward zero is the floor for nonnegative rationals and
the ceiling for negative ones. -/
theorem ratTrunc_eq_floor_ceil (q : ℚ) :
    ratTrunc q = if 0 ≤ q then ⌊q⌋ else ⌈q⌉ := by
  unfold ratTrunc
  by_cases hq : 0 ≤ q
  · rw [if_pos hq, Rat.floor_def]
    exact Int.tdiv_eq_ediv (Rat.num_nonneg.mpr hq) (Int.natCast_nonneg q.den)
  · rw [if_neg hq]
    have hceil : ⌈q⌉ = -⌊-q⌋ := by
      have hc := Int.ceil_neg (α := ℚ) (a := -q)
      rwa [neg_neg] at hc
    have hnum : 0 ≤ -q.num := by
      have : q.num ≤ 0 := by
        by_contra hcon
        exact hq (Rat.num_nonneg.mp (le_of_lt (lt_of_not_ge hcon)))
      omega
    rw [hceil, Rat.floor_def, Rat.num_neg_eq_neg_num, Rat.den_neg_eq_den,
      ← Int.tdiv_eq_ediv hnum (Int.natCast_nonneg q.den), Int.neg_tdiv, neg_neg]

/-- Claim C10: for every input whose comma- and sign-stripped body parses as
a decimal number with a non-zero fractional part, `format_amount` discards
the fraction by truncating the parsed magnitude toward zero — the floor for a
nonnegative value, the ceiling for a negative one — rather than rounding to
the nearest integer, re-attaching the stripped minus sign in front. -/
theorem C10_truncation (s : String) (q : ℚ) (hne : s ≠ "")
    (hp : parseFloatChars (formatParseBody s) = some q) (hden : q.den ≠ 1) :
    formatAmount s =
      if formatIsNeg s then "-" ++ groupInt (if 0 ≤ q then ⌊q⌋ else ⌈q⌉)
      else groupInt (if 0 ≤ q then ⌊q⌋ else ⌈q⌉) := by
  unfold formatAmount
  rw [if_neg (by simpa using hne)]
  simp only [hp]
  rw [if_neg (fun hcon => hden hcon.1)]
  simp only [ratTrunc_eq_floor_ceil]

/-- Witness for claim C10 at the inputs "2.9" and "-2.9": the fraction is
dropped toward zero, yielding "2" and "-2". -/
theorem C10_truncation_witness :
    parseFloatChars (formatParseBody "2.9") = some ((29 : ℚ)/10) ∧
    ((29 : ℚ)/10).den ≠ 1 ∧
    formatAmount "2.9" = "2" ∧ formatAmount "-2.9" = "-2" := by
  refine ⟨by decide, by decide, ?_, ?_⟩
  · exact (C10_truncation "2.9" ((29 : ℚ)/10) (by decide) (by decide)
      (by decide)).trans (by decide)
  · exact (C10_truncation "-2.9" ((29 : ℚ)/10) (by decide) (by decide)
      (by decide)).trans (by decide)

/-- Helper: removing the commas from a digit-or-comma run leaves a digit
run. -/
theorem filter_digitComma_all_digit (t : List Char)
    (h : t.all isDigitComma = true) :
    (t.filter (fun c => c != ',')).all Char.isDigit = true := by
  rw [List.all_eq_true] at h ⊢
  intro x hx
  obtain ⟨hx1, hx2⟩ := List.mem_filter.mp hx
  have hdc := h x hx1
  unfold isDigitComma at hdc
  rcases Bool.or_eq_true_iff.mp hdc with hd | hc
  · exact hd
  · exact absurd hc (by simpa using hx2)

/-- Helper: a list of digit characters cannot start with a non-digit
character. -/
theorem all_digits_head_ne (l : List Char) (c0 : Char)
    (hc0 : Char.isDigit c0 = false) (h : l.all Char.isDigit = true) :
    (l.head? == some c0) = false := by
  cases l with
  | nil => rfl
  | cons d t =>
    have hd : Char.isDigit d = true :=
      List.all_eq_true.mp h d (List.mem_cons_self d t)
    show (some d == some c0) = false
    simp only [beq_eq_false_iff_ne, ne_eq, Option.some.injEq]
    intro he
    rw [he, hc0] at hd
    cases hd

/-- Helper: `parseFloatChars` on a non-empty pure digit run returns exactly
the natural number those digits denote. -/
theorem parseFloatChars_digits (l : List Char) (hne : l ≠ [])
    (h : l.all Char.isDigit = true) :
    parseFloatChars l = some ((digitsToNat l : ℕ) : ℚ) := by
  have hm := all_digits_head_ne l '-' (by decide) h
  have hplus := all_digits_head_ne l '+' (by decide) h
  have ht : l.takeWhile Char.isDigit = l :=
    List.takeWhile_eq_self_iff.mpr (fun x hx => (List.all_eq_true.mp h) x hx)
  have hie : l.isEmpty = false := by
    cases l with
    | nil => exact absurd rfl hne
    | cons a t => rfl
  simp [parseFloatChars, hm, hplus, ht, List.drop_length, hie]

/-- Helper: for a well-formed cleaned token, the body that `format_amount`
parses is a pure digit run. -/
theorem cleanToken_body_digits (s : String) (h : isCleanToken s = true) :
    (formatParseBody s).all Char.isDigit = true := by
  unfold isCleanToken at h
  unfold formatParseBody
  by_cases hh : (s.toList.head? == some '-') = true
  · rw [if_pos hh] at h
    obtain ⟨h1, h2⟩ := Bool.and_eq_true_iff.mp h
    cases hs : s.toList with
    | nil => rw [hs] at hh; cases hh
    | cons c t =>
      rw [hs] at hh h2
      have hc : c = '-' := by simpa using hh
      subst hc
      rw [List.filter_cons_of_pos (by decide)]
      rw [if_pos (by simp)]
      simp only [List.tail_cons] at h2 ⊢
      exact filter_digitComma_all_digit t h2
  · rw [if_neg hh] at h
    obtain ⟨h1, h2⟩ := Bool.and_eq_true_iff.mp h
    have hall : (s.toList.filter (fun c => c != ',')).all Char.isDigit = true :=
      filter_digitComma_all_digit _ h2
    have hhf := all_digits_head_ne _ '-' (by decide) hall
    rw [if_neg (by rw [hhf]; exact Bool.false_ne_true)]
    exact hall

/-- Helper: a well-formed cleaned token is not the empty string. -/
theorem cleanToken_ne_empty (s : String) (h : isCleanToken s = true) :
    s ≠ "" := by
  intro he
  subst he
  exact absurd h (by decide)

/-- Claim C8: `format_amount` maps the empty token to the empty string and
returns unchanged any token whose stripped body fails to parse as a number;
for every well-formed cleaned numeric token whose signed value has absolute
value at least 1,000,000 and exactly divisible by 1,000,000, it returns that
value divided by 1,000,000, formatted with grouping separators and the sign
preserved as a leading minus (as `groupInt` renders negatives). -/
theorem C8_formatter :
    formatAmount "" = "" ∧
    (∀ s, isCleanToken s = true →
      parseFloatChars (formatParseBody s) = none → formatAmount s = s) ∧
    (∀ s v, isCleanToken s = true → parseOfFormat s = some v →
      1000000 ≤ v.natAbs → (1000000 : ℤ) ∣ v →
      formatAmount s = groupInt (v / 1000000)) := by
  refine ⟨rfl, ?_, ?_⟩
  · intro s hclean hpnone
    unfold formatAmount
    rw [if_neg (by simpa using cleanToken_ne_empty s hclean)]
    simp only [hpnone]
  · intro s v hclean hp hge hdvd
    have hbody := cleanToken_body_digits s hclean
    unfold parseOfFormat at hp
    obtain ⟨q, hq, hrest⟩ := Option.bind_eq_some.mp hp
    have hbne : formatParseBody s ≠ [] := by
      intro hb
      rw [hb] at hq
      cases hq
    have hqval := parseFloatChars_digits (formatParseBody s) hbne hbody
    rw [hq] at hqval
    have hqdef : q = ((digitsToNat (formatParseBody s) : ℕ) : ℚ) :=
      Option.some.inj hqval
    have hqnum : q.num = ((digitsToNat (formatParseBody s) : ℕ) : ℤ) := by
      rw [hqdef]; exact Rat.num_natCast _
    have hqden : q.den = 1 := by rw [hqdef]; exact Rat.den_natCast _
    rw [if_pos hqden] at hrest
    have hv : v = if formatIsNeg s then -q.num else q.num :=
      (Option.some.inj hrest).symm
    have hna : v.natAbs = digitsToNat (formatParseBody s) := by
      rw [hv]
      cases hn : formatIsNeg s
      · simp only [Bool.false_eq_true, if_false, hqnum, Int.natAbs_ofNat]
      · simp only [if_true, Int.natAbs_neg, hqnum, Int.natAbs_ofNat]
    have hge' : (1000000 : ℤ) ≤ q.num := by
      rw [hqnum]
      exact_mod_cast hna ▸ hge
    have hdvd' : (1000000 : ℤ) ∣ q.num := by
      rcases hn : formatIsNeg s with _ | _
      · rw [hv, hn] at hdvd
        simpa using hdvd
      · rw [hv, hn] at hdvd
        simpa using (Int.dvd_neg.mp (by simpa using hdvd))
    unfold formatAmount
    rw [if_neg (by simpa using cleanToken_ne_empty s hclean)]
    simp only [hq]
    rw [if_pos ⟨hqden, hge', Int.emod_eq_zero_of_dvd hdvd'⟩]
    cases hn : formatIsNeg s
    · rw [hv, hn]
      simp only [Bool.false_eq_true, if_false]
    · rw [hv, hn]
      simp only [if_true]
      rw [Int.neg_ediv_of_dvd hdvd', mul_neg_one]

/-- Witness for claim C8 at the tokens "2,000,000" and "-2,000,000". -/
theorem C8_formatter_witness :
    parseOfFormat "2,000,000" = some 2000000 ∧
    formatAmount "2,000,000" = groupInt (2000000 / 1000000) ∧
    parseOfFormat "-2,000,000" = some (-2000000) ∧
    formatAmount "-2,000,000" = groupInt ((-2000000) / 1000000) :=
  ⟨by decide,
   C8_formatter.2.2 "2,000,000" 2000000 (by decide) (by decide)
     (by decide) (by decide),
   by decide,
   C8_formatter.2.2 "-2,000,000" (-2000000) (by decide) (by decide)
     (by decide) (by decide)⟩

end BalanceSeat
